/-
Verification of the Torn-Market-Chart price-collection scheduler, alert
evaluator, notifier cooldown and candle aggregator.

The definitions below are a shallow embedding of the Python sources:
  backend/app/services/price_service.py        (scheduler, failure counter,
                                                price-log persistence, alerts)
  backend/app/services/notification_service.py (Discord notifier, cooldown)
  backend/app/api/endpoints/alerts.py          (create_alert endpoint)
  backend/app/api/endpoints/prices.py          (candle aggregation)

Conventions used throughout:
  * timestamps are integers (minutes for the scheduler and alert throttle,
    seconds for the candle aggregator, matching the units each piece of the
    source works in);
  * prices are natural numbers; the source encodes "no price this tick" as 0
    (torn_api.get_items returns 0 when a source has no listings, and every
    consumer treats 0 as absent via NULLIF/`> 0` guards);
  * SQL NULL-able columns become Option; SQL comparisons against NULL are
    false, which the embedding reproduces explicitly.
-/
import Mathlib

set_option linter.unusedVariables false

/-! ### Generic list helpers (insertion sort, dedup, chunking, SQL MIN/MAX) -/

/-- Insert an element into a list, keeping elements `le`-sorted. -/
def insertLe {α : Type} (le : α → α → Bool) (x : α) : List α → List α
  | [] => [x]
  | y :: ys => if le x y then x :: y :: ys else y :: insertLe le x ys

/-- Insertion sort by a boolean comparison, used to model SQL ORDER BY. -/
def sortLe {α : Type} (le : α → α → Bool) : List α → List α
  | [] => []
  | x :: xs => insertLe le x (sortLe le xs)

theorem mem_insertLe {α : Type} (le : α → α → Bool) (x : α) (l : List α) (y : α) :
    y ∈ insertLe le x l ↔ y = x ∨ y ∈ l := by
  induction l with
  | nil => simp [insertLe]
  | cons a as ih =>
      simp only [insertLe]
      by_cases h : le x a = true
      · simp [h]
      · simp only [if_neg h, List.mem_cons, ih]
        tauto

theorem mem_sortLe {α : Type} (le : α → α → Bool) (l : List α) (y : α) :
    y ∈ sortLe le l ↔ y ∈ l := by
  induction l with
  | nil => simp [sortLe]
  | cons a as ih => simp [sortLe, mem_insertLe, ih]

theorem pairwise_insertLe {α : Type} (le : α → α → Bool)
    (htot : ∀ a b, le a b = true ∨ le b a = true)
    (htrans : ∀ a b c, le a b = true → le b c = true → le a c = true)
    (x : α) (l : List α)
    (hl : l.Pairwise (fun a b => le a b = true)) :
    (insertLe le x l).Pairwise (fun a b => le a b = true) := by
  induction l with
  | nil => simp [insertLe]
  | cons a as ih =>
      simp only [insertLe]
      rcases List.pairwise_cons.mp hl with ⟨ha, has⟩
      by_cases h : le x a = true
      · rw [if_pos h]
        refine List.pairwise_cons.mpr ⟨?_, hl⟩
        intro b hb
        rcases List.mem_cons.mp hb with rfl | hb
        · exact h
        · exact htrans x a b h (ha b hb)
      · rw [if_neg h]
        refine List.pairwise_cons.mpr ⟨?_, ih has⟩
        intro b hb
        rcases (mem_insertLe le x as b).mp hb with rfl | hb
        · rcases htot a b with hab | hba
          · exact hab
          · exact absurd hba h
        · exact ha b hb

/-- Sortedness of insertion sort for a total, transitive boolean comparison. -/
theorem pairwise_sortLe {α : Type} (le : α → α → Bool)
    (htot : ∀ a b, le a b = true ∨ le b a = true)
    (htrans : ∀ a b c, le a b = true → le b c = true → le a c = true)
    (l : List α) :
    (sortLe le l).Pairwise (fun a b => le a b = true) := by
  induction l with
  | nil => simp [sortLe]
  | cons a as ih => exact pairwise_insertLe le htot htrans a (sortLe le as) ih

/-- Deduplicate a list, modelling the distinct grouping keys of a SQL
GROUP BY (the order is irrelevant: the result is sorted afterwards). -/
def dedupKeys {α : Type} [DecidableEq α] : List α → List α
  | [] => []
  | x :: xs =>
      let d := dedupKeys xs
      if x ∈ d then d else x :: d

theorem mem_dedupKeys {α : Type} [DecidableEq α] (l : List α) (y : α) :
    y ∈ dedupKeys l ↔ y ∈ l := by
  induction l with
  | nil => simp [dedupKeys]
  | cons a as ih =>
      simp only [dedupKeys]
      by_cases h : a ∈ dedupKeys as
      · simp only [if_pos h, List.mem_cons, ih]
        constructor
        · exact fun hy => Or.inr hy
        · rintro (rfl | hy)
          · exact ih.mp h
          · exact hy
      · simp [if_neg h, ih]

/-- Structural worker for `chunkList`; the fuel always suffices because it
starts at the list length. -/
def chunkListAux {α : Type} (n : Nat) : Nat → List α → List (List α)
  | 0, _ => []
  | _, [] => []
  | fuel + 1, x :: xs => (x :: xs).take n :: chunkListAux n fuel ((x :: xs).drop n)

/-- Function `chunkList n l` splits `l` into consecutive chunks of size `n`,
mirroring the Python `[items[i:i+chunk_size] for i in range(0, len(items), chunk_size)]`. -/
def chunkList {α : Type} (n : Nat) (l : List α) : List (List α) :=
  chunkListAux n l.length l

theorem chunkListAux_join {α : Type} (n : Nat) (hn : 0 < n) :
    ∀ (fuel : Nat) (l : List α), l.length ≤ fuel → (chunkListAux n fuel l).flatten = l := by
  intro fuel
  induction fuel with
  | zero =>
      intro l hl
      have : l = [] := List.length_eq_zero.mp (Nat.le_zero.mp hl)
      subst this
      rfl
  | succ fuel ih =>
      intro l hl
      match l with
      | [] => rfl
      | x :: xs =>
          simp only [List.length_cons] at hl
          simp only [chunkListAux, List.flatten_cons]
          rw [ih ((x :: xs).drop n)
            (by simp only [List.length_drop, List.length_cons]; omega)]
          exact List.take_append_drop n (x :: xs)

theorem chunkList_join {α : Type} (n : Nat) (hn : 0 < n) (l : List α) :
    (chunkList n l).flatten = l :=
  chunkListAux_join n hn l.length l le_rfl

/-- Chunk-then-map-then-flatten is map: the bulk inserts of the per-chunk
loop cover exactly one row per input element. -/
theorem flattenMapComm {α β : Type} (f : α → β) (L : List (List α)) :
    (L.map (fun l => l.map f)).flatten = L.flatten.map f := by
  induction L with
  | nil => rfl
  | cons a as ih =>
      simp only [List.map_cons, List.flatten_cons, List.map_append, ih]

/-- SQL `MAX` over a (possibly empty) group of integers: NULL on empty input. -/
def sqlMax : List Nat → Option Nat
  | [] => none
  | x :: xs =>
      match sqlMax xs with
      | none => some x
      | some m => some (max x m)

theorem sqlMax_spec (l : List Nat) :
    (l = [] ∧ sqlMax l = none) ∨
      ∃ m, sqlMax l = some m ∧ m ∈ l ∧ ∀ x ∈ l, x ≤ m := by
  induction l with
  | nil => exact Or.inl ⟨rfl, rfl⟩
  | cons a as ih =>
      right
      rcases ih with ⟨hnil, hmax⟩ | ⟨m, hm, hmem, hub⟩
      · subst hnil
        exact ⟨a, rfl, List.mem_singleton.mpr rfl, by simp⟩
      · refine ⟨max a m, ?_, ?_, ?_⟩
        · simp [sqlMax, hm]
        · rcases max_choice a m with h | h
          · rw [h]; exact List.mem_cons_self a as
          · rw [h]; exact List.mem_cons_of_mem a hmem
        · intro x hx
          rcases List.mem_cons.mp hx with rfl | hx
          · exact le_max_left _ _
          · exact le_trans (hub x hx) (le_max_right _ _)

/-- SQL `MIN` over a group of integers: NULL on empty input. -/
def sqlMin : List Nat → Option Nat
  | [] => none
  | x :: xs =>
      match sqlMin xs with
      | none => some x
      | some m => some (min x m)

theorem sqlMin_spec (l : List Nat) :
    (l = [] ∧ sqlMin l = none) ∨
      ∃ m, sqlMin l = some m ∧ m ∈ l ∧ ∀ x ∈ l, m ≤ x := by
  induction l with
  | nil => exact Or.inl ⟨rfl, rfl⟩
  | cons a as ih =>
      right
      rcases ih with ⟨hnil, hmin⟩ | ⟨m, hm, hmem, hlb⟩
      · subst hnil
        exact ⟨a, rfl, List.mem_singleton.mpr rfl, by simp⟩
      · refine ⟨min a m, ?_, ?_, ?_⟩
        · simp [sqlMin, hm]
        · rcases min_choice a m with h | h
          · rw [h]; exact List.mem_cons_self a as
          · rw [h]; exact List.mem_cons_of_mem a hmem
        · intro x hx
          rcases List.mem_cons.mp hx with rfl | hx
          · exact min_le_left _ _
          · exact le_trans (min_le_right _ _) (hlb x hx)

/-! ### Data model

`Item` carries the columns `update_all_prices` and `_process_items` read and
write (the migration scripts add `failure_count` and the cached avg/trend
columns to the `items` table; `last_updated_at` has a server default and is
rewritten on every processed tick, so it is modelled as always present). -/

structure Item where
  id : Nat
  torn_id : Nat
  name : String
  is_tracked : Bool
  failure_count : Option Nat
  last_updated_at : Int
  last_market_price : Nat
  last_bazaar_price : Nat
  deriving Repr, DecidableEq

/-! ### Rate budget and item selection (`PriceService.update_all_prices`) -/

/-- Constant `BACKOFF_HIGH_MINUTES = 60` from `update_all_prices`. -/
def BACKOFF_HIGH_MINUTES : Int := 60

/-- Constant `BACKOFF_LOW_MINUTES = 30` from `update_all_prices`. -/
def BACKOFF_LOW_MINUTES : Int := 30

/-- Constant `FAILURE_THRESHOLD_LOW = 3` from `update_all_prices`. -/
def FAILURE_THRESHOLD_LOW : Nat := 3

/-- Constant `FAILURE_THRESHOLD_HIGH = 10` from `update_all_prices`. -/
def FAILURE_THRESHOLD_HIGH : Nat := 10

/-- Effective limit `rate_limit = base_limit * key_count`, with `key_count` falling back to 1
when no active API keys exist (`if not key_count: key_count = 1`). -/
def effective_rate_limit (base_limit key_count : Nat) : Nat :=
  base_limit * (if key_count = 0 then 1 else key_count)

/-- The SQL `WHERE` clause of the Phase-2 (untracked/backfill) query:

    Item.is_tracked == False AND
      (failure_count < LOW
       OR (failure_count >= LOW AND failure_count < HIGH
           AND last_updated_at <= now - 30min)
       OR (failure_count >= HIGH AND last_updated_at <= now - 60min))

A SQL comparison against a NULL `failure_count` is not true, so an item with
NULL `failure_count` matches no disjunct. `now` is in minutes. -/
def backfill_eligible (now : Int) (it : Item) : Bool :=
  !it.is_tracked &&
    (match it.failure_count with
     | none => false
     | some fc =>
         decide (fc < FAILURE_THRESHOLD_LOW) ||
         (decide (FAILURE_THRESHOLD_LOW ≤ fc) && decide (fc < FAILURE_THRESHOLD_HIGH) &&
           decide (it.last_updated_at ≤ now - BACKOFF_LOW_MINUTES)) ||
         (decide (FAILURE_THRESHOLD_HIGH ≤ fc) &&
           decide (it.last_updated_at ≤ now - BACKOFF_HIGH_MINUTES)))

/-- Boolean ordering key of `ORDER BY last_updated_at ASC`. -/
def staleLe (a b : Item) : Bool := decide (a.last_updated_at ≤ b.last_updated_at)

/-- Phase-2 item query: eligible untracked items, ordered by `last_updated_at`
ascending, truncated to the remaining capacity (`.limit(remaining_capacity)`).
`remaining_capacity` is an integer because the Python subtraction can go
negative; the query only runs when it is positive. -/
def select_untracked (now : Int) (items : List Item) (remaining_capacity : Int) : List Item :=
  (sortLe staleLe (items.filter (backfill_eligible now))).take remaining_capacity.toNat

/-- Log events emitted by `update_all_prices` before and during selection:
the rate-limit configuration line reports the per-key limit, active-key count
and effective limit; the Phase-1 line reports the priority-item count. -/
inductive SchedulerLog where
  | rateLimitConfig (base_limit key_count rate_limit : Nat)
  | phase1Fetch (tracked_count : Nat)
  | phase2Fetch (untracked_count : Nat) (remaining_capacity : Int)
  deriving Repr, DecidableEq

/-- The item-selection skeleton of `update_all_prices` for one tick: Phase 1
processes every tracked item unconditionally; `remaining_capacity =
rate_limit - len(tracked_items)`; Phase 2 runs only when it is positive and
selects eligible untracked items, stalest first, up to that capacity.
Returns the items processed this tick (in processing order) and the log. -/
def update_all_prices_selection (base_limit key_count : Nat) (now : Int)
    (items : List Item) : List Item × List SchedulerLog :=
  let rate_limit := effective_rate_limit base_limit key_count
  let tracked_items := items.filter (·.is_tracked)
  let log0 := [SchedulerLog.rateLimitConfig base_limit
                 (if key_count = 0 then 1 else key_count) rate_limit,
               SchedulerLog.phase1Fetch tracked_items.length]
  let remaining_capacity : Int := (rate_limit : Int) - tracked_items.length
  if remaining_capacity > 0 then
    let untracked_items := select_untracked now items remaining_capacity
    (tracked_items ++ untracked_items,
     log0 ++ [SchedulerLog.phase2Fetch untracked_items.length remaining_capacity])
  else
    (tracked_items, log0)

/-! ### Failure counter (`PriceService._process_items`, lines 152-156)

    if status.get('market') or status.get('bazaar'):
        item.failure_count = 0
    else:
        item.failure_count = (item.failure_count or 0) + 1

When the fetch returned no data at all for the item, `status` is the empty
dict and both lookups are falsy. -/

/-- New `failure_count` after one tick, from the two per-source statuses. -/
def update_failure_count (market_ok bazaar_ok : Bool) (failure_count : Option Nat) : Nat :=
  if market_ok || bazaar_ok then 0 else failure_count.getD 0 + 1

/-- Value of `failure_count` after `n` further consecutive ticks in which both sources
failed, starting from `fc`. -/
def failed_ticks (fc : Option Nat) : Nat → Nat
  | 0 => fc.getD 0
  | n + 1 => update_failure_count false false (some (failed_ticks fc n))

/-! ### Fetch results and `_process_items` (price-log persistence)

`torn_api.get_items` builds, for every requested item id, a dict with
`market_price` / `bazaar_price` (0 when the source returned no listings),
the avg-of-top-5 fields, the top-10 listings per source, and a per-source
boolean status.  `_process_items` falls back to all-zero values and an empty
status dict when `fetched_data.get(item.torn_id)` is missing. -/

structure Listing where
  price : Nat
  quantity : Nat
  id : Option Nat
  deriving Repr, DecidableEq

structure FetchData where
  market_price : Nat
  bazaar_price : Nat
  market_price_avg : Nat
  bazaar_price_avg : Nat
  listings_market : List Listing
  listings_bazaar : List Listing
  status_market : Bool
  status_bazaar : Bool
  deriving Repr, DecidableEq

/-- The `price_updates` dict built per item in `_process_items`. -/
structure PriceUpdate where
  item_id : Nat
  torn_id : Nat
  item_name : String
  timestamp : Int
  market_price : Nat
  bazaar_price : Nat
  market_price_avg : Nat
  bazaar_price_avg : Nat
  cheapest_bazaar_seller : Option Nat
  best_listing_id : Option String
  quantity : Nat
  deriving Repr, DecidableEq

/-- A row of the `price_logs` table (the keys of the `price_updates` dict
kept by the DB-insert filter: everything except `item_name`, `torn_id`,
`cheapest_bazaar_seller`, `best_listing_id` and `quantity`). -/
structure PriceLogRow where
  item_id : Nat
  timestamp : Int
  market_price : Nat
  bazaar_price : Nat
  market_price_avg : Nat
  bazaar_price_avg : Nat
  deriving Repr, DecidableEq

/-- Python `str(...)` applied to an optional integer id. -/
def idStr : Option Nat → String
  | none => "None"
  | some n => toString n

/-- The per-item body of the `for item in chunk` loop in `_process_items`
(lines 135-199): default all-zero prices when no data was fetched, best
listing id and quantity from whichever source is cheapest, and the cheapest
bazaar seller id for the notification URL. -/
def build_price_update (now : Int) (it : Item) (data : Option FetchData) : PriceUpdate :=
  let market_price := match data with | some d => d.market_price | none => 0
  let bazaar_price := match data with | some d => d.bazaar_price | none => 0
  let market_price_avg := match data with | some d => d.market_price_avg | none => 0
  let bazaar_price_avg := match data with | some d => d.bazaar_price_avg | none => 0
  let best_pair : Option String × Nat :=
    if market_price > 0 && (bazaar_price == 0 || market_price < bazaar_price) then
      match data with
      | some d =>
          match d.listings_market with
          | l :: _ => (some (idStr l.id), l.quantity)
          | [] => (none, 0)
      | none => (none, 0)
    else if bazaar_price > 0 then
      match data with
      | some d =>
          match d.listings_bazaar with
          | l :: _ => (some (idStr l.id), l.quantity)
          | [] => (none, 0)
      | none => (none, 0)
    else (none, 0)
  let cheapest_bazaar_seller : Option Nat :=
    match data with
    | some d =>
        match d.listings_bazaar with
        | l :: _ => l.id
        | [] => none
    | none => none
  { item_id := it.id
    torn_id := it.torn_id
    item_name := it.name
    timestamp := now
    market_price := market_price
    bazaar_price := bazaar_price
    market_price_avg := market_price_avg
    bazaar_price_avg := bazaar_price_avg
    cheapest_bazaar_seller := cheapest_bazaar_seller
    best_listing_id := best_pair.1
    quantity := best_pair.2 }

/-- The item-cache update done in the same loop iteration: failure counter
from the per-source statuses (empty status dict when no data), cached last
prices, and `last_updated_at = now`. -/
def process_item_cache (now : Int) (it : Item) (data : Option FetchData) : Item :=
  let status_market := match data with | some d => d.status_market | none => false
  let status_bazaar := match data with | some d => d.status_bazaar | none => false
  { it with
    failure_count := some (update_failure_count status_market status_bazaar it.failure_count)
    last_market_price := match data with | some d => d.market_price | none => 0
    last_bazaar_price := match data with | some d => d.bazaar_price | none => 0
    last_updated_at := now }

/-- Projection of a `price_updates` dict onto the `price_logs` columns. -/
def db_insert_row (u : PriceUpdate) : PriceLogRow :=
  { item_id := u.item_id
    timestamp := u.timestamp
    market_price := u.market_price
    bazaar_price := u.bazaar_price
    market_price_avg := u.market_price_avg
    bazaar_price_avg := u.bazaar_price_avg }

/-- Body of `_process_items`: chunk the batch into groups of 50; per chunk, build one
`price_updates` dict per item and bulk-insert the corresponding `PriceLog`
rows (`if price_updates:` — per nonempty chunk the insert always runs).
Returns (all price updates, all inserted rows). -/
def process_items (now : Int) (items : List Item) (fetched : Nat → Option FetchData) :
    List PriceUpdate × List PriceLogRow :=
  let chunks := chunkList 50 items
  let chunk_updates := chunks.map (fun chunk =>
    chunk.map (fun it => build_price_update now it (fetched it.torn_id)))
  (chunk_updates.flatten, (chunk_updates.map (fun us => us.map db_insert_row)).flatten)

/-! ### Price alerts (`PriceService.check_alerts`) -/

/-- A row of `price_alerts` with the deduplication columns added by
`migrate_alert.py`. -/
structure PriceAlert where
  id : Nat
  item_id : Nat
  target_price : Nat
  condition : String
  is_active : Bool
  is_persistent : Bool
  last_triggered_price : Option Nat
  last_triggered_id : Option String
  last_triggered_at : Option Int
  deriving Repr, DecidableEq

/-- Throttle window of recurring alerts: `timedelta(minutes=5)`. -/
def THROTTLE_MINUTES : Int := 5

/-- The non-zero price candidates collected before taking the minimum:

    prices = []
    if market_price > 0: prices.append(market_price)
    if bazaar_price > 0: prices.append(bazaar_price)
-/
def valid_prices (market_price bazaar_price : Nat) : List Nat :=
  (if market_price > 0 then [market_price] else []) ++
  (if bazaar_price > 0 then [bazaar_price] else [])

/-- The `is_same_id` computation for a persistent alert (lines 342-346):
string equality when both ids are truthy, the `True` fallback when both are
absent, and `False` when exactly one is present. -/
def listing_id_unchanged (last_triggered_id best_listing_id : Option String) : Bool :=
  match best_listing_id, last_triggered_id with
  | some b, some l => l == b
  | none, none => true
  | _, _ => false

/-- How one completed iteration of the `check_alerts` loop ends.
`notified` can only arise in the counterfactual branch in which the dispatch
call binds; with the actual call site it never does (see the keyword-binding
section below). -/
inductive AlertOutcome where
  | skippedInactive
  | noUpdate
  | noValidPrice
  | notTriggered
  | suppressed
  | notified (best_price : Nat) (market_type : String)
  deriving Repr, DecidableEq

/-- The trigger test (lines 319-323): `below` fires strictly under the
target, `above` strictly over it. -/
def alert_triggered (alert : PriceAlert) (best_price : Nat) : Bool :=
  (alert.condition == "below" && best_price < alert.target_price) ||
  (alert.condition == "above" && best_price > alert.target_price)

/-- Source label (lines 313-315): Market when the best price is the market
price, Bazaar otherwise, overridden when both sources tie exactly. -/
def market_type_label (market_price bazaar_price best_price : Nat) : String :=
  if market_price > 0 && bazaar_price > 0 && market_price == bazaar_price
  then "Market/Bazaar"
  else if best_price == market_price then "Market" else "Bazaar"

/-- Flag `has_changed` (line 348): price or listing id differs from the
last-triggered state (a NULL last price never equals an integer). -/
def dedup_changed (alert : PriceAlert) (best_price : Nat)
    (best_listing_id : Option String) : Bool :=
  !((alert.last_triggered_price == some best_price) &&
    listing_id_unchanged alert.last_triggered_id best_listing_id)

/-- Flag `is_expired` (lines 351-353): time since the last trigger strictly above
5 minutes, with a NULL `last_triggered_at` acting as 999 hours ago. -/
def throttle_expired (now : Int) (last_triggered_at : Option Int) : Bool :=
  (match last_triggered_at with
   | some t => now - t
   | none => (999 : Int) * 60) > THROTTLE_MINUTES

/-- Where the loop body for one alert stands just before the dispatch call
at line 379: either a non-notify exit (`continue`), or one of the two notify
paths.  For a persistent alert the in-memory dedup assignments of lines
368-370 have already executed at this point and are carried in the
constructor; for a one-shot alert the deactivation at line 392 has NOT yet
happened — it is sequenced after the dispatch call. -/
inductive AlertDecision where
  | skippedInactive
  | noUpdate
  | noValidPrice
  | notTriggered
  | suppressed
  | notifyPersistent (best_price : Nat) (market_type : String) (updated : PriceAlert)
  | notifyOneShot (best_price : Nat) (market_type : String)
  deriving Repr, DecidableEq

/-- The part of the `check_alerts` loop body (lines 292-370) that executes
before the dispatch call, `now` in minutes.  Alerts are evaluated only when
active (the fetch query filters `is_active == True`) and only when their
item is in the update batch (`updates_map.get`). -/
def check_alert_decision (now : Int) (alert : PriceAlert)
    (update? : Option PriceUpdate) : AlertDecision :=
  if !alert.is_active then .skippedInactive else
  match update? with
  | none => .noUpdate
  | some update =>
      let market_price := update.market_price
      let bazaar_price := update.bazaar_price
      let best_listing_id := update.best_listing_id
      let prices := valid_prices market_price bazaar_price
      match prices.min? with
      | none => .noValidPrice
      | some best_price =>
          let market_type := market_type_label market_price bazaar_price best_price
          if !alert_triggered alert best_price then .notTriggered
          else if alert.is_persistent then
            if dedup_changed alert best_price best_listing_id ||
               throttle_expired now alert.last_triggered_at then
              .notifyPersistent best_price market_type
                { alert with
                  last_triggered_price := some best_price
                  last_triggered_id := best_listing_id
                  last_triggered_at := some now }
            else .suppressed
          else .notifyOneShot best_price market_type

/-! ### Notifier (`NotificationService.send_discord_alert`) -/

/-- The in-memory `self._bazaar_cooldowns` dict: `(seller_id, item_id) ↦`
time of the last alert that passed the cooldown check. -/
structure NotifState where
  bazaar_cooldowns : List ((Nat × Nat) × Int)
  deriving Repr, DecidableEq

/-- Constant `COOLDOWN_DURATION = timedelta(minutes=30)`. -/
def COOLDOWN_DURATION : Int := 30

/-- Python dict membership + lookup. -/
def cooldownOf (st : NotifState) (key : Nat × Nat) : Option Int :=
  (st.bazaar_cooldowns.find? (fun e => e.1 == key)).map (fun e => e.2)

/-- Python dict assignment `self._bazaar_cooldowns[key] = now`. -/
def setCooldown (st : NotifState) (key : Nat × Nat) (now : Int) : NotifState :=
  ⟨(key, now) :: st.bazaar_cooldowns.filter (fun e => !(e.1 == key))⟩

/-- Python truthiness of the optional `bazaar_seller_id` argument. -/
def truthySeller : Option Nat → Bool
  | none => false
  | some n => n != 0

/-- How a `send_discord_alert` call ended. -/
inductive NotifOutcome where
  | skippedCooldown
  | skippedNoWebhook
  | posted
  deriving Repr, DecidableEq

/-- Control flow of `send_discord_alert` (notification_service lines 21-80):
first the per-(seller, item) cooldown check — return silently when a call for
the same key passed less than 30 minutes ago, otherwise stamp the key — then
the webhook-configured check, then the HTTP post whose failure is caught and
logged.  `posted` means the delivery attempt was made. -/
def send_discord_alert (st : NotifState) (now : Int) (item_id : Nat)
    (bazaar_seller_id : Option Nat) (webhook_configured : Bool) :
    NotifState × NotifOutcome :=
  if truthySeller bazaar_seller_id then
    let key := (bazaar_seller_id.getD 0, item_id)
    match cooldownOf st key with
    | some last_sent =>
        if now - last_sent < COOLDOWN_DURATION then (st, .skippedCooldown)
        else
          let st' := setCooldown st key now
          if webhook_configured then (st', .posted) else (st', .skippedNoWebhook)
    | none =>
        let st' := setCooldown st key now
        if webhook_configured then (st', .posted) else (st', .skippedNoWebhook)
  else
    if webhook_configured then (st, .posted) else (st, .skippedNoWebhook)

/-! ### Keyword binding of the notifier call (`check_alerts` lines 379-388)

`check_alerts` invokes `send_discord_alert` with keyword arguments; Python
binds each keyword against the callee's parameter list and raises `TypeError`
for an unexpected keyword. -/

/-- Parameter names of `NotificationService.send_discord_alert`
(notification_service.py line 21, `self` excluded). -/
def send_discord_alert_param_names : List String :=
  ["item_name", "item_id", "price", "market_type", "condition",
   "target_price", "bazaar_seller_id"]

/-- Keyword arguments supplied at the call site in `PriceService.check_alerts`
(price_service.py lines 379-388). -/
def check_alerts_call_keywords : List String :=
  ["item_name", "item_id", "price", "market_type", "condition",
   "target_price", "bazaar_seller_id", "quantity"]

/-- A Python keyword call binds iff every supplied keyword names a parameter
(the callee has no `**kwargs`); otherwise the call raises `TypeError` before
the callee body runs. -/
def python_kwargs_bind (param_names keywords : List String) : Bool :=
  keywords.all (fun k => param_names.contains k)

/-- A Python exception value. -/
inductive PyError where
  | typeError (func keyword : String)
  deriving Repr, DecidableEq

/-- The dispatch at lines 379-388 as Python executes it: the call's keyword
set is bound against `send_discord_alert`'s parameter list before the callee
body runs; an unexpected keyword raises `TypeError` instead of entering the
function. -/
def dispatch_notification : Except PyError Unit :=
  if python_kwargs_bind send_discord_alert_param_names check_alerts_call_keywords
  then .ok () else .error (.typeError "send_discord_alert" "quantity")

/-- One iteration of the `check_alerts` loop with the source's sequencing:
the decision phase runs first; on a notify path the dispatch call at line
379 is made BEFORE the one-shot deactivation at line 392.  An exception from
the call propagates out of `check_alerts` uncaught, so the deactivation and
the `session.commit()` at line 397 never run and the persisted alert row is
left unchanged (the in-memory dedup assignments of lines 368-370 are
discarded when the session closes without committing). -/
def check_alert_step (now : Int) (alert : PriceAlert)
    (update? : Option PriceUpdate) : Except PyError (PriceAlert × AlertOutcome) :=
  match check_alert_decision now alert update? with
  | .skippedInactive => .ok (alert, .skippedInactive)
  | .noUpdate => .ok (alert, .noUpdate)
  | .noValidPrice => .ok (alert, .noValidPrice)
  | .notTriggered => .ok (alert, .notTriggered)
  | .suppressed => .ok (alert, .suppressed)
  | .notifyPersistent best mt updated =>
      match dispatch_notification with
      | .ok _ => .ok (updated, .notified best mt)
      | .error e => .error e
  | .notifyOneShot best mt =>
      match dispatch_notification with
      | .ok _ => .ok ({ alert with is_active := false }, .notified best mt)
      | .error e => .error e

/-! ### Alert creation endpoint (`alerts.py create_alert`) -/

/-- Request schema `AlertCreate`. -/
structure AlertCreate where
  item_id : Nat
  target_price : Nat
  condition : String
  is_persistent : Bool
  deriving Repr, DecidableEq

/-- Set `is_tracked := true` on the first item with the given id (the object
returned by `result.scalars().first()` is the one mutated). -/
def set_tracked_first (iid : Nat) : List Item → List Item
  | [] => []
  | it :: rest =>
      if it.id == iid then { it with is_tracked := true } :: rest
      else it :: set_tracked_first iid rest

/-- Endpoint `create_alert`: 404 when the item does not exist; otherwise build the new
alert row (`is_active=True`, dedup columns at their NULL defaults), auto-track
the item when it is not yet tracked, and return the new state and row. -/
def create_alert (items : List Item) (next_alert_id : Nat) (req : AlertCreate) :
    Except Nat (List Item × PriceAlert) :=
  match items.find? (fun it => it.id == req.item_id) with
  | none => .error 404
  | some item =>
      let new_alert : PriceAlert :=
        { id := next_alert_id
          item_id := req.item_id
          target_price := req.target_price
          condition := req.condition
          is_active := true
          is_persistent := req.is_persistent
          last_triggered_price := none
          last_triggered_id := none
          last_triggered_at := none }
      let items' := if item.is_tracked then items else set_tracked_first req.item_id items
      .ok (items', new_alert)

/-! ### Candle aggregation (`prices.py get_price_history`)

The recognized non-raw intervals bucket timestamps into fixed windows: the
`15m`/`30m`/`4h`/`12h` branches floor the unix timestamp to a multiple of the
period; `1h` and `1d` truncate via DATE_FORMAT, which on UTC datetimes equals
epoch-aligned flooring with periods 3600 and 86400; `1w` groups by ISO
year-week starting Monday, i.e. flooring relative to the Monday origin
345600 (1970-01-05).  Any other value falls back to raw rows. -/

/-- Period (seconds) and epoch offset of each recognized non-raw interval. -/
def interval_period : String → Option (Nat × Int)
  | "15m" => some (900, 0)
  | "30m" => some (1800, 0)
  | "1h" => some (3600, 0)
  | "4h" => some (14400, 0)
  | "12h" => some (43200, 0)
  | "1d" => some (86400, 0)
  | "1w" => some (604800, 345600)
  | _ => none

/-- Time bucket of a timestamp: floor to the previous period boundary
(relative to the interval's origin). -/
def bucket_of (p : Nat) (off : Int) (ts : Int) : Int :=
  (ts - off).fdiv p * p + off

/-- The WHERE filter of `get_price_history`: one item, inclusive range. -/
def price_history_rows (item_id : Nat) (limit_start limit_end : Int)
    (rows : List PriceLogRow) : List PriceLogRow :=
  rows.filter (fun r =>
    r.item_id == item_id && limit_start ≤ r.timestamp && r.timestamp ≤ limit_end)

/-- Ordering key of `ORDER BY timestamp ASC` on price-log rows. -/
def rowTsLe (a b : PriceLogRow) : Bool := decide (a.timestamp ≤ b.timestamp)

/-- Open price `SUBSTRING_INDEX(GROUP_CONCAT(NULLIF(f,0) ORDER BY timestamp ASC), ',', 1)`:
GROUP_CONCAT drops NULLs, so this is the f-value of the first row (in
timestamp order) whose f-value is non-zero, NULL when there is none. -/
def open_px (f : PriceLogRow → Nat) (g : List PriceLogRow) : Option Nat :=
  (((sortLe rowTsLe g).filter (fun r => f r != 0)).head?).map f

/-- Same with `ORDER BY timestamp DESC`: the last non-zero value. -/
def close_px (f : PriceLogRow → Nat) (g : List PriceLogRow) : Option Nat :=
  (((sortLe rowTsLe g).filter (fun r => f r != 0)).getLast?).map f

/-- Aggregate `AVG(NULLIF(f, 0))`: mean of the non-zero values, NULL when none. -/
def sqlAvg (l : List Nat) : Option ℚ :=
  let v := l.filter (fun n => n ≠ 0)
  if v.length = 0 then none
  else some ((v.map (fun n => (n : ℚ))).sum / v.length)

/-- One row of the aggregated response (`PriceCandle` schema). -/
structure PriceCandle where
  timestamp : Int
  market_open : Option Nat
  market_close : Option Nat
  market_high : Option Nat
  market_low : Option Nat
  market_avg : Option ℚ
  bazaar_open : Option Nat
  bazaar_close : Option Nat
  bazaar_high : Option Nat
  bazaar_low : Option Nat
  bazaar_avg : Option ℚ
  deriving Repr, DecidableEq

/-- The SELECT list evaluated over one GROUP BY group `g` (all filtered rows
of bucket `b`): MAX over the raw prices, MIN/AVG over NULLIF(·,0), and the
GROUP_CONCAT open/close trick per source. -/
def candle_for (p : Nat) (off : Int) (rows : List PriceLogRow) (b : Int) : PriceCandle :=
  let g := rows.filter (fun r => bucket_of p off r.timestamp == b)
  { timestamp := b
    market_open := open_px (fun r => r.market_price) g
    market_close := close_px (fun r => r.market_price) g
    market_high := sqlMax (g.map (fun r => r.market_price))
    market_low := sqlMin ((g.map (fun r => r.market_price)).filter (fun n => n ≠ 0))
    market_avg := sqlAvg (g.map (fun r => r.market_price_avg))
    bazaar_open := open_px (fun r => r.bazaar_price) g
    bazaar_close := close_px (fun r => r.bazaar_price) g
    bazaar_high := sqlMax (g.map (fun r => r.bazaar_price))
    bazaar_low := sqlMin ((g.map (fun r => r.bazaar_price)).filter (fun n => n ≠ 0))
    bazaar_avg := sqlAvg (g.map (fun r => r.bazaar_price_avg)) }

/-- Integer `ORDER BY ... ASC`. -/
def intLe (a b : Int) : Bool := decide (a ≤ b)

/-- The aggregated branch of `get_price_history`: filter to item and range,
group by time bucket (GROUP BY emits one group per distinct key of an
existing row — empty buckets do not appear), order by bucket ascending, and
evaluate the candle SELECT list per group. -/
def get_price_history_candles (p : Nat) (off : Int) (item_id : Nat)
    (limit_start limit_end : Int) (rows : List PriceLogRow) : List PriceCandle :=
  let filtered := price_history_rows item_id limit_start limit_end rows
  let buckets := sortLe intLe (dedupKeys (filtered.map (fun r => bucket_of p off r.timestamp)))
  buckets.map (candle_for p off filtered)

/-! ## Claims -/

/-- C2: per processed item and tick, `failure_count` becomes exactly 0 when at
least one source succeeded, is incremented by exactly 1 when both sources
failed, and is therefore monotonically non-decreasing over consecutive
all-fail ticks.  The last conjunct grounds the per-tick rule in the item-cache
update applied by `_process_items`. -/
theorem C2_failure_count_rule (market_ok bazaar_ok : Bool) (fc : Option Nat)
    (n : Nat) (now : Int) (it : Item) (d : Option FetchData) :
    ((market_ok || bazaar_ok) = true → update_failure_count market_ok bazaar_ok fc = 0) ∧
    ((market_ok || bazaar_ok) = false →
       update_failure_count market_ok bazaar_ok fc = fc.getD 0 + 1 ∧
       fc.getD 0 < update_failure_count market_ok bazaar_ok fc) ∧
    failed_ticks fc n ≤ failed_ticks fc (n + 1) ∧
    (process_item_cache now it d).failure_count =
      some (update_failure_count
        (match d with | some x => x.status_market | none => false)
        (match d with | some x => x.status_bazaar | none => false)
        it.failure_count) := by
  refine ⟨?_, ?_, ?_, ?_⟩
  · intro h
    simp [update_failure_count, h]
  · intro h
    simp [update_failure_count, h]
  · simp [failed_ticks, update_failure_count]
  · cases d <;> simp [process_item_cache]

/-- Witness for C2 at a concrete input: a bazaar-only success resets the
counter to 0, a double failure bumps 4 to 5. -/
theorem C2_witness :
    update_failure_count false true (some 7) = 0 ∧
    update_failure_count false false (some 4) = 5 := by
  refine ⟨(C2_failure_count_rule false true (some 7) 0 0
            { id := 0, torn_id := 0, name := "", is_tracked := false,
              failure_count := none, last_updated_at := 0,
              last_market_price := 0, last_bazaar_price := 0 } none).1 (by decide), ?_⟩
  have h := (C2_failure_count_rule false false (some 4) 0 0
            { id := 0, torn_id := 0, name := "", is_tracked := false,
              failure_count := none, last_updated_at := 0,
              last_market_price := 0, last_bazaar_price := 0 } none).2.1 (by decide)
  exact h.1

/-- C8: the dispatch site in `check_alerts` passes the keyword `quantity`,
which `send_discord_alert` does not accept (and it has no `**kwargs`), so the
call raises `TypeError` to the caller instead of being a fire-and-forget,
never-raising notification attempt. -/
theorem C8_notify_call_raises_TypeError :
    python_kwargs_bind send_discord_alert_param_names check_alerts_call_keywords = false ∧
    "quantity" ∈ check_alerts_call_keywords ∧
    "quantity" ∉ send_discord_alert_param_names := by
  decide

/-- C3: an untracked item whose failure count has reached the high threshold
is never selected for backfill while less than `BACKOFF_HIGH_MINUTES` have
elapsed since its last check. -/
theorem C3_high_backoff (now : Int) (items : List Item) (cap : Int) (it : Item)
    (fc : Nat) (hfc : it.failure_count = some fc)
    (hhigh : FAILURE_THRESHOLD_HIGH ≤ fc)
    (hrecent : now - it.last_updated_at < BACKOFF_HIGH_MINUTES) :
    it ∉ select_untracked now items cap := by
  intro hmem
  have h1 : it ∈ sortLe staleLe (items.filter (backfill_eligible now)) :=
    List.take_subset _ _ hmem
  have h2 : it ∈ items.filter (backfill_eligible now) := (mem_sortLe _ _ _).mp h1
  have h3 : backfill_eligible now it = true := (List.mem_filter.mp h2).2
  unfold backfill_eligible at h3
  rw [hfc] at h3
  simp only [FAILURE_THRESHOLD_LOW, FAILURE_THRESHOLD_HIGH, BACKOFF_LOW_MINUTES,
    BACKOFF_HIGH_MINUTES, Bool.and_eq_true, Bool.or_eq_true, decide_eq_true_eq]
    at h3 hhigh hrecent
  rcases h3 with ⟨-, h3 | h3 | h3⟩
  · omega
  · omega
  · omega

/-- Witness for C3: a concrete failed-out item checked 10 minutes ago is not
selected even with ample capacity. -/
theorem C3_witness :
    { id := 7, torn_id := 7, name := "w", is_tracked := false,
      failure_count := some 12, last_updated_at := 90,
      last_market_price := 0, last_bazaar_price := 0 : Item } ∉
      select_untracked 100
        [{ id := 7, torn_id := 7, name := "w", is_tracked := false,
           failure_count := some 12, last_updated_at := 90,
           last_market_price := 0, last_bazaar_price := 0 }] 50 :=
  C3_high_backoff 100 _ 50 _ 12 rfl (by decide) (by decide)

/-- Decomposition of `set_tracked_first` around the first id match (the
object `result.scalars().first()` returns is the one mutated). -/
theorem set_tracked_first_decomp (iid : Nat) (items : List Item) (item : Item)
    (hfind : items.find? (fun it => it.id == iid) = some item) :
    ∃ pre post, items = pre ++ item :: post ∧
      (∀ x ∈ pre, (x.id == iid) = false) ∧
      set_tracked_first iid items = pre ++ { item with is_tracked := true } :: post := by
  induction items with
  | nil => simp at hfind
  | cons a as ih =>
      by_cases h : (a.id == iid) = true
      · rw [List.find?_cons_of_pos as
          (show (fun it : Item => it.id == iid) a = true from h)] at hfind
        obtain rfl : a = item := by injection hfind
        exact ⟨[], as, rfl, by intro x hx; simp at hx, by simp [set_tracked_first, h]⟩
      · rw [List.find?_cons_of_neg as
          (show ¬(fun it : Item => it.id == iid) a = true from h)] at hfind
        obtain ⟨pre, post, h1, h2, h3⟩ := ih hfind
        refine ⟨a :: pre, post, by simp [h1], ?_, ?_⟩
        · intro x hx
          rcases List.mem_cons.mp hx with rfl | hx
          · simpa using h
          · exact h2 x hx
        · simp only [set_tracked_first, h3, List.cons_append]
          rw [if_neg h]

/-- C9: a successful create-alert request whose item exists and is untracked
flips that item's `is_tracked` to true, touches no other item field and no
other item, and stores the new alert row active with NULL dedup state. -/
theorem C9_create_alert_auto_tracks (items : List Item) (nid : Nat)
    (req : AlertCreate) (item : Item)
    (hfind : items.find? (fun it => it.id == req.item_id) = some item)
    (huntracked : item.is_tracked = false) :
    create_alert items nid req =
      .ok (set_tracked_first req.item_id items,
           { id := nid, item_id := req.item_id, target_price := req.target_price,
             condition := req.condition, is_active := true,
             is_persistent := req.is_persistent, last_triggered_price := none,
             last_triggered_id := none, last_triggered_at := none }) ∧
    (∃ pre post, items = pre ++ item :: post ∧
       (∀ x ∈ pre, (x.id == req.item_id) = false) ∧
       set_tracked_first req.item_id items =
         pre ++ { item with is_tracked := true } :: post) ∧
    ({ item with is_tracked := true }).is_tracked = true ∧
    ({ item with is_tracked := true }).id = item.id ∧
    ({ item with is_tracked := true }).torn_id = item.torn_id ∧
    ({ item with is_tracked := true }).name = item.name ∧
    ({ item with is_tracked := true }).failure_count = item.failure_count ∧
    ({ item with is_tracked := true }).last_updated_at = item.last_updated_at ∧
    ({ item with is_tracked := true }).last_market_price = item.last_market_price ∧
    ({ item with is_tracked := true }).last_bazaar_price = item.last_bazaar_price := by
  refine ⟨?_, set_tracked_first_decomp req.item_id items item hfind,
    rfl, rfl, rfl, rfl, rfl, rfl, rfl, rfl⟩
  simp [create_alert, hfind, huntracked]

/-- Concrete item for the C9 witness. -/
def w9item : Item :=
  { id := 3, torn_id := 300, name := "Xanax", is_tracked := false,
    failure_count := some 0, last_updated_at := 0,
    last_market_price := 100, last_bazaar_price := 90 }

/-- Concrete request for the C9 witness. -/
def w9req : AlertCreate :=
  { item_id := 3, target_price := 80, condition := "below", is_persistent := false }

/-- Witness for C9 at a concrete state: the single item gets tracked. -/
theorem C9_witness :
    create_alert [w9item] 1 w9req =
      .ok (set_tracked_first w9req.item_id [w9item],
           { id := 1, item_id := w9req.item_id, target_price := w9req.target_price,
             condition := w9req.condition, is_active := true,
             is_persistent := w9req.is_persistent, last_triggered_price := none,
             last_triggered_id := none, last_triggered_at := none }) ∧
    set_tracked_first w9req.item_id [w9item] = [{ w9item with is_tracked := true }] :=
  ⟨(C9_create_alert_auto_tracks [w9item] 1 w9req w9item rfl rfl).1, by decide⟩

/-- C4 is refuted by the code: `_process_items` builds one `price_updates`
dict per item of the batch whether or not any source yielded a price, and the
bulk insert persists them all, so one `PriceLog` row is inserted per item and
an entry whose two prices are both 0 (the encoding of "no price") is
persisted rather than skipped. -/
theorem C4_amended_rows (now : Int) (items : List Item)
    (fetched : Nat → Option FetchData) :
    (process_items now items fetched).2 =
      items.map (fun it => db_insert_row (build_price_update now it (fetched it.torn_id))) ∧
    (process_items now items fetched).2.length = items.length ∧
    (∀ it ∈ items, fetched it.torn_id = none →
       (build_price_update now it (fetched it.torn_id)).market_price = 0 ∧
       (build_price_update now it (fetched it.torn_id)).bazaar_price = 0) := by
  have hrows : (process_items now items fetched).2 =
      items.map (fun it => db_insert_row (build_price_update now it (fetched it.torn_id))) := by
    show ((chunkList 50 items).map
        (fun chunk => chunk.map (fun it => build_price_update now it (fetched it.torn_id)))
          |>.map (fun us => us.map db_insert_row)).flatten = _
    rw [List.map_map]
    have : ((fun us : List PriceUpdate => us.map db_insert_row) ∘
        (fun chunk : List Item =>
          chunk.map (fun it => build_price_update now it (fetched it.torn_id)))) =
        (fun chunk : List Item =>
          chunk.map (fun it => db_insert_row (build_price_update now it (fetched it.torn_id)))) := by
      funext chunk
      simp [List.map_map, Function.comp]
    rw [this, flattenMapComm, chunkList_join 50 (by norm_num)]
  refine ⟨hrows, by rw [hrows, List.length_map], ?_⟩
  intro it hit hnone
  rw [hnone]
  exact ⟨rfl, rfl⟩

/-- Witness for C4's amended statement at a concrete batch. -/
theorem C4_witness :
    (process_items 0
      [{ id := 1, torn_id := 101, name := "X", is_tracked := true,
         failure_count := some 0, last_updated_at := 0,
         last_market_price := 5, last_bazaar_price := 5 }]
      (fun a => none)).2.length = 1 :=
  (C4_amended_rows 0
    [{ id := 1, torn_id := 101, name := "X", is_tracked := true,
       failure_count := some 0, last_updated_at := 0,
       last_market_price := 5, last_bazaar_price := 5 }]
    (fun a => none)).2.1

/-- Counterexample to C4 as stated: with the fetch returning no data for the
only item of the tick, both sources are absent, yet a `PriceLog` row (both
prices 0, the code's encoding of an absent price) is persisted for it. -/
theorem C4_counterexample :
    (process_items 0
      [{ id := 1, torn_id := 101, name := "X", is_tracked := true,
         failure_count := some 0, last_updated_at := 0,
         last_market_price := 5, last_bazaar_price := 5 }]
      (fun a => none)).2 =
      [{ item_id := 1, timestamp := 0, market_price := 0, bazaar_price := 0,
         market_price_avg := 0, bazaar_price_avg := 0 }] := by
  decide

/-- Phase-2 branch taken: positive remaining capacity. -/
theorem uaps_pos_branch (base_limit key_count : Nat) (now : Int) (items : List Item)
    (h : ((effective_rate_limit base_limit key_count : Int) -
            (items.filter (fun it => it.is_tracked)).length) > 0) :
    update_all_prices_selection base_limit key_count now items =
      (items.filter (fun it => it.is_tracked) ++
         select_untracked now items
           ((effective_rate_limit base_limit key_count : Int) -
              (items.filter (fun it => it.is_tracked)).length),
       [SchedulerLog.rateLimitConfig base_limit
          (if key_count = 0 then 1 else key_count)
          (effective_rate_limit base_limit key_count),
        SchedulerLog.phase1Fetch (items.filter (fun it => it.is_tracked)).length,
        SchedulerLog.phase2Fetch
          (select_untracked now items
            ((effective_rate_limit base_limit key_count : Int) -
               (items.filter (fun it => it.is_tracked)).length)).length
          ((effective_rate_limit base_limit key_count : Int) -
             (items.filter (fun it => it.is_tracked)).length)]) := by
  simp only [update_all_prices_selection, if_pos h, List.append_assoc, List.cons_append,
    List.nil_append]

/-- Phase-2 branch skipped: no remaining capacity. -/
theorem uaps_nonpos_branch (base_limit key_count : Nat) (now : Int) (items : List Item)
    (h : ¬(((effective_rate_limit base_limit key_count : Int) -
             (items.filter (fun it => it.is_tracked)).length) > 0)) :
    update_all_prices_selection base_limit key_count now items =
      (items.filter (fun it => it.is_tracked),
       [SchedulerLog.rateLimitConfig base_limit
          (if key_count = 0 then 1 else key_count)
          (effective_rate_limit base_limit key_count),
        SchedulerLog.phase1Fetch (items.filter (fun it => it.is_tracked)).length]) := by
  simp only [update_all_prices_selection, if_neg h]

/-- Concrete C1 scenario item: id doubles as torn id. -/
def scn_item (i : Nat) (tr : Bool) (stale : Int) : Item :=
  { id := i, torn_id := i, name := "s", is_tracked := tr,
    failure_count := some 0, last_updated_at := stale,
    last_market_price := 0, last_bazaar_price := 0 }

/-- C1 scenario: 3 priority items and 20 always-eligible backfill items with
strictly increasing staleness timestamps. -/
def scn_items : List Item :=
  ((List.range 3).map (fun i => scn_item i true 0)) ++
  ((List.range 20).map (fun i => scn_item (100 + i) false (1 + (i : Int))))

/-- C1: per tick the number of selected items never exceeds the effective
rate limit unless the priority items alone exceed it, in which case exactly
the priority items are processed while the emitted log still reports the
priority count and the effective limit (the condition is observable, not
silently dropped); concretely, with `5/key × 2 keys = 10`, 3 priority items
and 20 eligible backfill items the tick selects exactly the 3 priority items
plus the 7 stalest backfill items. -/
theorem C1_selection_budget (base_limit key_count : Nat) (now : Int)
    (items : List Item) :
    ((items.filter (fun it => it.is_tracked)).length ≤
        effective_rate_limit base_limit key_count →
      (update_all_prices_selection base_limit key_count now items).1.length ≤
        effective_rate_limit base_limit key_count) ∧
    (effective_rate_limit base_limit key_count <
        (items.filter (fun it => it.is_tracked)).length →
      (update_all_prices_selection base_limit key_count now items).1 =
        items.filter (fun it => it.is_tracked)) ∧
    SchedulerLog.rateLimitConfig base_limit (if key_count = 0 then 1 else key_count)
        (effective_rate_limit base_limit key_count) ∈
      (update_all_prices_selection base_limit key_count now items).2 ∧
    SchedulerLog.phase1Fetch (items.filter (fun it => it.is_tracked)).length ∈
      (update_all_prices_selection base_limit key_count now items).2 ∧
    effective_rate_limit 5 2 = 10 ∧
    ((update_all_prices_selection 5 2 1000 scn_items).1.map (fun it => it.id)) =
      [0, 1, 2, 100, 101, 102, 103, 104, 105, 106] ∧
    (update_all_prices_selection 5 2 1000 scn_items).1.length = 10 := by
  refine ⟨?_, ?_, ?_, ?_, by decide, by decide, by decide⟩
  · intro hle
    by_cases h : (((effective_rate_limit base_limit key_count : Int) -
        (items.filter (fun it => it.is_tracked)).length) > 0)
    · rw [uaps_pos_branch base_limit key_count now items h]
      simp only [List.length_append]
      have h2 := List.length_take_le
        (((effective_rate_limit base_limit key_count : Int) -
            (items.filter (fun it => it.is_tracked)).length)).toNat
        (sortLe staleLe (items.filter (backfill_eligible now)))
      unfold select_untracked
      omega
    · rw [uaps_nonpos_branch base_limit key_count now items h]
      exact hle
  · intro hlt
    have h : ¬(((effective_rate_limit base_limit key_count : Int) -
        (items.filter (fun it => it.is_tracked)).length) > 0) := by omega
    rw [uaps_nonpos_branch base_limit key_count now items h]
  · by_cases h : (((effective_rate_limit base_limit key_count : Int) -
        (items.filter (fun it => it.is_tracked)).length) > 0)
    · rw [uaps_pos_branch base_limit key_count now items h]
      simp
    · rw [uaps_nonpos_branch base_limit key_count now items h]
      simp
  · by_cases h : (((effective_rate_limit base_limit key_count : Int) -
        (items.filter (fun it => it.is_tracked)).length) > 0)
    · rw [uaps_pos_branch base_limit key_count now items h]
      simp
    · rw [uaps_nonpos_branch base_limit key_count now items h]
      simp

/-- Witness for C1: the concrete scenario discharges the under-budget branch
(3 priority items against limit 10). -/
theorem C1_witness :
    (update_all_prices_selection 5 2 1000 scn_items).1.length ≤
      effective_rate_limit 5 2 :=
  (C1_selection_budget 5 2 1000 scn_items).1 (by decide)

/-- Concrete recurring alert (never triggered before) for C5's failing
input. -/
def w5alert : PriceAlert :=
  { id := 1, item_id := 2, target_price := 150, condition := "below",
    is_active := true, is_persistent := true,
    last_triggered_price := none, last_triggered_id := none,
    last_triggered_at := none }

/-- Concrete price update for C5's failing input: market 100, bazaar absent. -/
def w5update : PriceUpdate :=
  { item_id := 2, torn_id := 200, item_name := "F", timestamp := 0,
    market_price := 100, bazaar_price := 0, market_price_avg := 0,
    bazaar_price_avg := 0, cheapest_bazaar_seller := none,
    best_listing_id := some "42", quantity := 1 }

/-- C5 fails on the code: at a concrete tick the active recurring alert
triggers with a changed price, the loop body reaches the notify decision
with the dedup state assigned in memory (first conjunct), but the dispatch
call raises `TypeError` for the unexpected keyword `quantity` before the
callee runs (second conjunct), so no notification is dispatched and — the
commit at line 397 being unreachable — no last-triggered state is persisted.
The third conjunct shows a non-dispatch path (identical re-trigger of the
hypothetically-updated alert inside the window) completes normally as
`suppressed`: only the dispatch paths die. -/
theorem C5_dispatch_raises :
    check_alert_decision 0 w5alert (some w5update) =
      .notifyPersistent 100 "Market"
        { w5alert with
          last_triggered_price := some 100
          last_triggered_id := some "42"
          last_triggered_at := some 0 } ∧
    check_alert_step 0 w5alert (some w5update) =
      .error (.typeError "send_discord_alert" "quantity") ∧
    check_alert_step 3
      { w5alert with
        last_triggered_price := some 100
        last_triggered_id := some "42"
        last_triggered_at := some 0 } (some w5update) =
      .ok ({ w5alert with
             last_triggered_price := some 100
             last_triggered_id := some "42"
             last_triggered_at := some 0 }, .suppressed) :=
  ⟨rfl, rfl, rfl⟩

/-- Concrete one-shot alert for C6's failing input. -/
def w6alert : PriceAlert :=
  { id := 9, item_id := 2, target_price := 150, condition := "below",
    is_active := true, is_persistent := false,
    last_triggered_price := none, last_triggered_id := none,
    last_triggered_at := none }

/-- C6 fails on the code: the one-shot deactivation at line 392 is sequenced
after the dispatch call, which always raises `TypeError`, so the triggered
one-shot alert is never deactivated — the persisted row stays active
(`is_active = true`, last conjunct) and the unchanged alert reaches the
dispatch again on the next tick (third conjunct) instead of firing at most
once. -/
theorem C6_deactivation_unreachable :
    check_alert_decision 0 w6alert (some w5update) = .notifyOneShot 100 "Market" ∧
    check_alert_step 0 w6alert (some w5update) =
      .error (.typeError "send_discord_alert" "quantity") ∧
    check_alert_step 1 w6alert (some w5update) =
      .error (.typeError "send_discord_alert" "quantity") ∧
    w6alert.is_active = true :=
  ⟨rfl, rfl, rfl, rfl⟩

/-- Update carrying a bazaar seller id for C10's failing input. -/
def w10update : PriceUpdate :=
  { item_id := 2, torn_id := 200, item_name := "F", timestamp := 0,
    market_price := 100, bazaar_price := 0, market_price_avg := 0,
    bazaar_price_avg := 0, cheapest_bazaar_seller := some 5,
    best_listing_id := some "42", quantity := 1 }

/-- Notifier state in which seller 5 / item 200 was stamped at minute 0. -/
def w10state : NotifState := ⟨[((5, 200), 0)]⟩

/-- C10 fails on the code: the keyword binding of the dispatch raises before
`send_discord_alert`'s body is entered, so from this call site the
per-(seller, item) cooldown check never runs and the one-shot deactivation
never takes effect (first conjunct) — even though the callee's own cooldown
logic, entered with exactly these arguments, would skip delivery and leave
its state untouched (second conjunct, the cooldown stamped 10 minutes
earlier). -/
theorem C10_cooldown_unreachable :
    check_alert_step 10 w6alert (some w10update) =
      .error (.typeError "send_discord_alert" "quantity") ∧
    send_discord_alert w10state 10 200 (some 5) true =
      (w10state, .skippedCooldown) :=
  ⟨rfl, rfl⟩

/-- The head of a sorted list is a member and a lower bound. -/
theorem head?_pairwise_min {α : Type} (le : α → α → Bool) (l : List α)
    (hl : l.Pairwise (fun a b => le a b = true)) (hrefl : ∀ a, le a a = true)
    (y : α) (hy : l.head? = some y) : y ∈ l ∧ ∀ x ∈ l, le y x = true := by
  cases l with
  | nil => simp at hy
  | cons a as =>
      obtain rfl : a = y := by simpa using hy
      refine ⟨List.mem_cons_self _ _, ?_⟩
      intro x hx
      rcases List.mem_cons.mp hx with rfl | hx
      · exact hrefl x
      · exact (List.pairwise_cons.mp hl).1 x hx

/-- The last element of a sorted list is a member and an upper bound. -/
theorem getLast?_pairwise_max {α : Type} (le : α → α → Bool)
    (hrefl : ∀ a, le a a = true) :
    ∀ (l : List α), l.Pairwise (fun a b => le a b = true) →
      ∀ y, l.getLast? = some y → y ∈ l ∧ ∀ x ∈ l, le x y = true := by
  intro l
  induction l with
  | nil => intro _ y hy; simp at hy
  | cons a as ih =>
      intro hl y hy
      cases as with
      | nil =>
          obtain rfl : a = y := by simpa using hy
          refine ⟨List.mem_singleton.mpr rfl, ?_⟩
          intro x hx
          have hxa := List.mem_singleton.mp hx
          subst hxa
          exact hrefl x
      | cons b bs =>
          rw [List.getLast?_cons_cons] at hy
          obtain ⟨hmem, hmax⟩ := ih (List.pairwise_cons.mp hl).2 y hy
          refine ⟨List.mem_cons_of_mem a hmem, ?_⟩
          intro x hx
          rcases List.mem_cons.mp hx with rfl | hx
          · exact (List.pairwise_cons.mp hl).1 y hmem
          · exact hmax x hx

/-- What the candle SELECT list promises for one source over the rows `g` of
one bucket: `h` is the maximum of all prices, `l` the minimum of the non-zero
prices, `o` a non-zero price attained at the earliest timestamp carrying one,
`c` one attained at the latest, each NULL exactly when no qualifying value
exists. -/
def ohlc_spec (f : PriceLogRow → Nat) (g : List PriceLogRow)
    (o c h l : Option Nat) : Prop :=
  (g ≠ [] → ∃ m, h = some m ∧ m ∈ g.map f ∧ ∀ x ∈ g.map f, x ≤ m) ∧
  ((∀ r ∈ g, f r = 0) → l = none ∧ o = none ∧ c = none) ∧
  (∀ r0 ∈ g, f r0 ≠ 0 →
     ((∃ m, l = some m ∧ (∃ r ∈ g, f r = m ∧ m ≠ 0) ∧
         ∀ r2 ∈ g, f r2 ≠ 0 → m ≤ f r2) ∧
      (∃ r ∈ g, f r ≠ 0 ∧ o = some (f r) ∧
         ∀ r2 ∈ g, f r2 ≠ 0 → r.timestamp ≤ r2.timestamp) ∧
      (∃ r ∈ g, f r ≠ 0 ∧ c = some (f r) ∧
         ∀ r2 ∈ g, f r2 ≠ 0 → r2.timestamp ≤ r.timestamp)))

/-- The source-side open/close/high/low expressions of `candle_for` satisfy
`ohlc_spec`. -/
theorem ohlc_spec_holds (f : PriceLogRow → Nat) (g : List PriceLogRow) :
    ohlc_spec f g (open_px f g) (close_px f g) (sqlMax (g.map f))
      (sqlMin ((g.map f).filter (fun n => n ≠ 0))) := by
  have hrefl : ∀ r : PriceLogRow, rowTsLe r r = true := by
    intro r; simp [rowTsLe]
  have htot : ∀ a b : PriceLogRow, rowTsLe a b = true ∨ rowTsLe b a = true := by
    intro a b
    simp only [rowTsLe, decide_eq_true_eq]
    omega
  have htrans : ∀ a b c : PriceLogRow,
      rowTsLe a b = true → rowTsLe b c = true → rowTsLe a c = true := by
    intro a b c
    simp only [rowTsLe, decide_eq_true_eq]
    omega
  have hsorted := pairwise_sortLe rowTsLe htot htrans g
  have hfsorted : ((sortLe rowTsLe g).filter (fun r => f r != 0)).Pairwise
      (fun a b => rowTsLe a b = true) :=
    hsorted.sublist (List.filter_sublist _)
  refine ⟨?_, ?_, ?_⟩
  · intro hne
    rcases sqlMax_spec (g.map f) with ⟨hnil, _⟩ | ⟨m, hm, hmem, hub⟩
    · exact absurd (List.map_eq_nil_iff.mp hnil) hne
    · exact ⟨m, hm, hmem, hub⟩
  · intro hz
    have hfe : (g.map f).filter (fun n => n ≠ 0) = [] := by
      rw [List.filter_eq_nil_iff]
      intro a ha
      obtain ⟨r, hr, rfl⟩ := List.mem_map.mp ha
      simpa using hz r hr
    have hse : (sortLe rowTsLe g).filter (fun r => f r != 0) = [] := by
      rw [List.filter_eq_nil_iff]
      intro r hr
      have hrg : r ∈ g := (mem_sortLe _ _ _).mp hr
      simp [hz r hrg]
    refine ⟨by rw [hfe]; rfl, ?_, ?_⟩
    · simp [open_px, hse]
    · simp [close_px, hse]
  · intro r0 hr0 hfr0
    refine ⟨?_, ?_, ?_⟩
    · rcases sqlMin_spec ((g.map f).filter (fun n => n ≠ 0)) with
        ⟨hnil, _⟩ | ⟨m, hm, hmem, hlb⟩
      · exfalso
        have hin : f r0 ∈ (g.map f).filter (fun n => n ≠ 0) := by
          rw [List.mem_filter]
          exact ⟨List.mem_map_of_mem f hr0, by simpa using hfr0⟩
        rw [hnil] at hin
        simp at hin
      · have hmm := List.mem_filter.mp hmem
        obtain ⟨r, hr, hfr⟩ := List.mem_map.mp hmm.1
        refine ⟨m, hm, ⟨r, hr, hfr, by simpa using hmm.2⟩, ?_⟩
        intro r2 hr2 hf2
        exact hlb (f r2) (by
          rw [List.mem_filter]
          exact ⟨List.mem_map_of_mem f hr2, by simpa using hf2⟩)
    · rcases hhead : ((sortLe rowTsLe g).filter (fun r => f r != 0)).head? with _ | y
      · exfalso
        rw [List.head?_eq_none_iff] at hhead
        have hr0s : r0 ∈ (sortLe rowTsLe g).filter (fun r => f r != 0) := by
          rw [List.mem_filter]
          exact ⟨(mem_sortLe _ _ _).mpr hr0, by simpa using hfr0⟩
        rw [hhead] at hr0s
        simp at hr0s
      · obtain ⟨hymem, hymin⟩ :=
          head?_pairwise_min rowTsLe _ hfsorted hrefl y hhead
        have hyg : y ∈ g := (mem_sortLe _ _ _).mp (List.mem_filter.mp hymem).1
        have hy0 : f y ≠ 0 := by simpa using (List.mem_filter.mp hymem).2
        refine ⟨y, hyg, hy0, by simp [open_px, hhead], ?_⟩
        intro r2 hr2 hf2
        have hr2s : r2 ∈ (sortLe rowTsLe g).filter (fun r => f r != 0) := by
          rw [List.mem_filter]
          exact ⟨(mem_sortLe _ _ _).mpr hr2, by simpa using hf2⟩
        have := hymin r2 hr2s
        simpa [rowTsLe] using this
    · rcases hlast : ((sortLe rowTsLe g).filter (fun r => f r != 0)).getLast? with _ | y
      · exfalso
        rw [List.getLast?_eq_none_iff] at hlast
        have hr0s : r0 ∈ (sortLe rowTsLe g).filter (fun r => f r != 0) := by
          rw [List.mem_filter]
          exact ⟨(mem_sortLe _ _ _).mpr hr0, by simpa using hfr0⟩
        rw [hlast] at hr0s
        simp at hr0s
      · obtain ⟨hymem, hymax⟩ :=
          getLast?_pairwise_max rowTsLe hrefl _ hfsorted y hlast
        have hyg : y ∈ g := (mem_sortLe _ _ _).mp (List.mem_filter.mp hymem).1
        have hy0 : f y ≠ 0 := by simpa using (List.mem_filter.mp hymem).2
        refine ⟨y, hyg, hy0, by simp [close_px, hlast], ?_⟩
        intro r2 hr2 hf2
        have hr2s : r2 ∈ (sortLe rowTsLe g).filter (fun r => f r != 0) := by
          rw [List.mem_filter]
          exact ⟨(mem_sortLe _ _ _).mpr hr2, by simpa using hf2⟩
        have := hymax r2 hr2s
        simpa [rowTsLe] using this

/-- C7: for every recognized non-raw interval, each returned candle belongs
to a time bucket containing at least one row (empty buckets are omitted),
every filtered row's bucket is represented, and per candle and per source:
high is the maximum price, low the minimum non-zero price, open a non-zero
price at the earliest timestamp carrying one, close one at the latest, each
NULL exactly when no qualifying value exists in the bucket, while the avg
columns aggregate the non-zero avg-of-top-listings values. -/
theorem C7_candle_aggregation (interval : String) (p : Nat) (off : Int)
    (hint : interval_period interval = some (p, off))
    (item_id : Nat) (limit_start limit_end : Int) (rows : List PriceLogRow) :
    (∀ c ∈ get_price_history_candles p off item_id limit_start limit_end rows,
       ∃ r ∈ price_history_rows item_id limit_start limit_end rows,
         bucket_of p off r.timestamp = c.timestamp) ∧
    (∀ r ∈ price_history_rows item_id limit_start limit_end rows,
       ∃ c ∈ get_price_history_candles p off item_id limit_start limit_end rows,
         c.timestamp = bucket_of p off r.timestamp) ∧
    (∀ c ∈ get_price_history_candles p off item_id limit_start limit_end rows,
       ohlc_spec (fun r => r.market_price)
         ((price_history_rows item_id limit_start limit_end rows).filter
            (fun r => bucket_of p off r.timestamp == c.timestamp))
         c.market_open c.market_close c.market_high c.market_low ∧
       ohlc_spec (fun r => r.bazaar_price)
         ((price_history_rows item_id limit_start limit_end rows).filter
            (fun r => bucket_of p off r.timestamp == c.timestamp))
         c.bazaar_open c.bazaar_close c.bazaar_high c.bazaar_low ∧
       c.market_avg = sqlAvg
         (((price_history_rows item_id limit_start limit_end rows).filter
             (fun r => bucket_of p off r.timestamp == c.timestamp)).map
           (fun r => r.market_price_avg)) ∧
       c.bazaar_avg = sqlAvg
         (((price_history_rows item_id limit_start limit_end rows).filter
             (fun r => bucket_of p off r.timestamp == c.timestamp)).map
           (fun r => r.bazaar_price_avg))) := by
  refine ⟨?_, ?_, ?_⟩
  · intro c hc
    obtain ⟨b, hb, rfl⟩ := List.mem_map.mp hc
    have hb1 : b ∈ dedupKeys
        ((price_history_rows item_id limit_start limit_end rows).map
          (fun r => bucket_of p off r.timestamp)) := (mem_sortLe _ _ _).mp hb
    have hb2 := (mem_dedupKeys _ _).mp hb1
    obtain ⟨r, hr, hrb⟩ := List.mem_map.mp hb2
    exact ⟨r, hr, hrb⟩
  · intro r hr
    have hb2 : bucket_of p off r.timestamp ∈
        ((price_history_rows item_id limit_start limit_end rows).map
          (fun r => bucket_of p off r.timestamp)) := List.mem_map_of_mem _ hr
    have hb1 := (mem_dedupKeys _ _).mpr hb2
    have hb := (mem_sortLe intLe _ _).mpr hb1
    exact ⟨candle_for p off (price_history_rows item_id limit_start limit_end rows)
        (bucket_of p off r.timestamp),
      List.mem_map_of_mem _ hb, rfl⟩
  · intro c hc
    obtain ⟨b, hb, rfl⟩ := List.mem_map.mp hc
    exact ⟨ohlc_spec_holds (fun r => r.market_price) _,
      ohlc_spec_holds (fun r => r.bazaar_price) _, rfl, rfl⟩

/-- Rows for the C7 witness: two rows of item 1 in the same 1-hour bucket. -/
def w7rows : List PriceLogRow :=
  [{ item_id := 1, timestamp := 100, market_price := 50, bazaar_price := 0,
     market_price_avg := 0, bazaar_price_avg := 0 },
   { item_id := 1, timestamp := 200, market_price := 40, bazaar_price := 0,
     market_price_avg := 0, bazaar_price_avg := 0 }]

/-- The single candle produced from `w7rows` at interval `1h`. -/
def w7candle : PriceCandle :=
  { timestamp := 0, market_open := some 50, market_close := some 40,
    market_high := some 50, market_low := some 40, market_avg := none,
    bazaar_open := none, bazaar_close := none, bazaar_high := some 0,
    bazaar_low := none, bazaar_avg := none }

/-- Witness for C7 with the recognized interval `1h`: the concrete candle is
produced and its bucket holds at least one filtered row. -/
theorem C7_witness :
    w7candle ∈ get_price_history_candles 3600 0 1 0 10000 w7rows ∧
    ∃ r ∈ price_history_rows 1 0 10000 w7rows,
      bucket_of 3600 0 r.timestamp = w7candle.timestamp :=
  ⟨by decide,
   (C7_candle_aggregation "1h" 3600 0 rfl 1 0 10000 w7rows).1 w7candle (by decide)⟩
